import Mathlib

/-!
Verification of the scroll/playback/pagination core of a short-form video
feed UI. The definitions below are a shallow embedding of the TypeScript
source: the three component variants share their data shaping and playback
synchronization code; the gesture engine comes from the wheel/touch variant
and the pagination controller from the paginated variant. React state
updates are modelled as pure state-transition functions; asynchronous fetch
results are passed in explicitly as values.
-/

namespace PexelFeed

/-- Author sub-record of an API video record (`PexelsUser` in the source). -/
structure PexelsUser where
  id : Nat
  name : String
  url : String
deriving Repr, DecidableEq

/-- One encoded rendition of an API video record (`PexelsVideoFile`). -/
structure PexelsVideoFile where
  id : Nat
  quality : String
  file_type : String
  width : Nat
  height : Nat
  link : String
deriving Repr, DecidableEq

/-- Raw API video record (`PexelsVideo`); `user` is optional (the source
guards accesses with `video.user?.`). -/
structure PexelsVideo where
  id : Nat
  duration : Nat
  image : String
  user : Option PexelsUser
  video_files : List PexelsVideoFile
deriving Repr, DecidableEq

/-- Shaped feed item (`FeedVideo` in the source). -/
structure FeedVideo where
  id : Nat
  src : String
  previewImage : String
  duration : Nat
  photographer : String
  photographerUrl : String
deriving Repr, DecidableEq

/-- Hardcoded fallback API key from the source (`API_KEY = import.meta.env…
?? 'oigofs…'`). -/
def fallbackApiKey : String :=
  "oigofsD0VKNu7nW2ah8RZQ2hxY0z2KeT3jL2qhcj2uAB0ckoQtxZw5m5"

/-- `API_KEY` resolution: the env variable when present (JS `??` only falls
through on null/undefined, so an empty-string env value stays empty),
otherwise the hardcoded fallback. -/
def apiKey (env : Option String) : String :=
  env.getD fallbackApiKey

/-- Requested page size of the paginated variant (`PER_PAGE = 12`). -/
def PER_PAGE : Nat := 12

/-- Rendition selection of `fetchVideos`: keep only `video/mp4` files, then
prefer quality `hd`, else `sd`, else the first mp4 file; records with no
mp4 rendition are dropped (return `none`). -/
def formatVideo (video : PexelsVideo) : Option FeedVideo :=
  let mp4Files := video.video_files.filter (fun file => file.file_type == "video/mp4")
  if mp4Files.isEmpty then none
  else
    let preferred? :=
      (mp4Files.find? (fun file => file.quality == "hd")).orElse
        (fun _ => (mp4Files.find? (fun file => file.quality == "sd")).orElse
          (fun _ => mp4Files.head?))
    match preferred? with
    | none => none
    | some preferred =>
        some { id := video.id
               src := preferred.link
               previewImage := video.image
               duration := video.duration
               photographer := ((video.user.map PexelsUser.name).getD "Unknown creator")
               photographerUrl :=
                 ((video.user.map PexelsUser.url).getD "https://www.pexels.com/videos/") }

/-- The `data.videos.map(…).filter(Boolean)` pipeline of `fetchVideos`. -/
def formatVideos (raw : List PexelsVideo) : List FeedVideo :=
  raw.filterMap formatVideo

/-- The `setVideos` updater used on an append fetch: keep the previous items
and append only the formatted items whose id is not already present. -/
def appendUnique (prev formatted : List FeedVideo) : List FeedVideo :=
  let existingIds := prev.map FeedVideo.id
  prev ++ formatted.filter (fun video => !(existingIds.contains video.id))

/-- The `status` state variable of the component. -/
inductive Status where
  | idle
  | loading
  | success
  | error
deriving Repr, DecidableEq

/-- Pagination/fetch-related component state of the paginated variant. -/
structure FetchState where
  videos : List FeedVideo
  status : Status
  errorMessage : Option String
  page : Nat
  hasMore : Bool
  isLoadingMore : Bool
deriving Repr, DecidableEq

/-- Resolution of the awaited network request inside `fetchVideos`: either a
parsed response body, or a thrown error (HTTP failure or transport failure,
with the abort flag distinguishing `AbortError`). -/
inductive FetchResult where
  | success (raw : List PexelsVideo)
  | failure (aborted : Bool) (message : String)
deriving Repr, DecidableEq

/-- Observable outcome of one `fetchVideos(pageToLoad, append)` call:
the settled component state, the boolean the promise resolves to, and the
page a network request was issued for (`none` when no request was sent). -/
structure FetchEffect where
  state : FetchState
  loaded : Bool
  requested : Option Nat
deriving Repr, DecidableEq

/-- The `fetchVideos` callback of the paginated variant, with the awaited
network outcome supplied as `result`. Mirrors the source line by line:
missing-key guard; loading flags; on success the shaping pipeline, the
append-or-replace `setVideos`, `setHasMore(raw.length === PER_PAGE)` from
the raw (pre-filter) count, `setStatus('success')`; on throw the error
state only for a non-append non-abort failure; `finally` clears
`isLoadingMore` for append calls. -/
def fetchVideos (env : Option String) (s : FetchState) (pageToLoad : Nat)
    (append : Bool) (result : FetchResult) : FetchEffect :=
  if apiKey env == "" then
    { state := { s with status := Status.error
                        errorMessage := some "Missing Pexels API key." }
      loaded := false
      requested := none }
  else
    let s1 := if append then { s with isLoadingMore := true }
              else { s with status := Status.loading, errorMessage := none }
    match result with
    | FetchResult.success raw =>
        let formatted := formatVideos raw
        let videos' := if append then appendUnique s1.videos formatted else formatted
        let s2 := { s1 with videos := videos'
                            hasMore := raw.length == PER_PAGE
                            status := Status.success }
        let s3 := if append then { s2 with isLoadingMore := false } else s2
        { state := s3, loaded := true, requested := some pageToLoad }
    | FetchResult.failure aborted msg =>
        let s2 := if append then s1
                  else if aborted then s1
                  else { s1 with errorMessage := some msg, status := Status.error }
        let s3 := if append then { s2 with isLoadingMore := false } else s2
        { state := s3, loaded := false, requested := some pageToLoad }

/-- The `loadMore` callback: guarded by `!hasMore || isLoadingMore`; fetches
page `page + 1` with `append = true` and advances `page` only when the
fetch resolved to `true`. Returns the settled state and the requested page. -/
def loadMore (env : Option String) (s : FetchState) (result : FetchResult) :
    FetchState × Option Nat :=
  if !s.hasMore || s.isLoadingMore then (s, none)
  else
    let nextPage := s.page + 1
    let eff := fetchVideos env s nextPage true result
    (if eff.loaded then { eff.state with page := nextPage } else eff.state, eff.requested)

/-- Synchronous prefix of `fetchVideos` up to its `await fetch(...)`
suspension point: the missing-key guard and the loading flags. Used to
model a request that is still in flight. -/
def fetchVideosRequestPhase (env : Option String) (s : FetchState) (pageToLoad : Nat)
    (append : Bool) : FetchState × Option Nat :=
  if apiKey env == "" then
    ({ s with status := Status.error, errorMessage := some "Missing Pexels API key." },
      none)
  else
    (if append then { s with isLoadingMore := true }
     else { s with status := Status.loading, errorMessage := none },
     some pageToLoad)

/-- `loadMore` up to the suspension point of its append fetch. -/
def loadMoreStart (env : Option String) (s : FetchState) : FetchState × Option Nat :=
  if !s.hasMore || s.isLoadingMore then (s, none)
  else fetchVideosRequestPhase env s (s.page + 1) true

/-- The lookahead pagination `useEffect` of the paginated variant: on an
index change, if `hasMore`, not loading, and the feed is non-empty, trigger
`loadMore` when `videos.length - (currentIndex + 1) <= 4`. The triggered
fetch is modelled as staying in flight (`loadMoreStart`). -/
def lookaheadEffect (env : Option String) (s : FetchState) (currentIndex : Nat) :
    FetchState × Option Nat :=
  if !s.hasMore || s.isLoadingMore || s.videos.length == 0 then (s, none)
  else if (s.videos.length : Int) - ((currentIndex : Int) + 1) ≤ 4 then
    loadMoreStart env s
  else (s, none)

/-- Run the lookahead effect once per committed index transition, collecting
the pages requested; any triggered append fetch remains in flight for the
rest of the sequence. -/
def advanceThrough (env : Option String) (s : FetchState) (indices : List Nat) :
    FetchState × List Nat :=
  indices.foldl
    (fun acc ci =>
      let step := lookaheadEffect env acc.1 ci
      (step.1, acc.2 ++ step.2.toList))
    (s, [])

/-- Observable state of one registered `HTMLVideoElement`. -/
structure VideoEl where
  playing : Bool
  currentTime : Nat
  muted : Bool
deriving Repr, DecidableEq

/-- The `videoRefs.current` record: id-keyed registered video elements
(`Record<number, HTMLVideoElement | null>`, with `null` entries deleted by
`registerVideo`). -/
abbrev VideoRefs := List (Nat × VideoEl)

/-- Model of `Array.prototype.findIndex`, with the `-1` miss sentinel
rendered as `none` (the source only compares the result against a
non-negative `currentIndex`, and `-1 === currentIndex` is always false). -/
def findIndexOf (p : α → Bool) : List α → Option Nat
  | [] => none
  | a :: as => if p a then some 0 else (findIndexOf p as).map (· + 1)

/-- Joint result of an effect or handler that updates both the registered
elements and the `unmutedVideoId` state variable. -/
structure SyncResult where
  refs : VideoRefs
  unmutedVideoId : Option Nat
deriving Repr, DecidableEq

/-- Per-element body of the mute-synchronization `useEffect`:
`element.muted = unmutedVideoId === null || numericId !== unmutedVideoId`. -/
def muteStep (unmutedVideoId : Option Nat) (p : Nat × VideoEl) : Nat × VideoEl :=
  (p.1, { p.2 with muted := unmutedVideoId == none || !(unmutedVideoId == some p.1) })

/-- The mute-synchronization `useEffect` (runs on `unmutedVideoId` change)
applied to every registered element. -/
def muteSyncEffect (unmutedVideoId : Option Nat) (refs : VideoRefs) : VideoRefs :=
  refs.map (muteStep unmutedVideoId)

/-- Per-element body of the play/pause `useEffect`: the element whose feed
index equals `currentIndex` gets a play request; every other element is
paused, reset to time zero, and force-muted when it is the unmuted one. -/
def syncStep (videos : List FeedVideo) (currentIndex : Nat)
    (unmutedVideoId : Option Nat) (p : Nat × VideoEl) : Nat × VideoEl :=
  if findIndexOf (fun v => v.id == p.1) videos == some currentIndex then
    (p.1, { p.2 with playing := true })
  else
    let el := { p.2 with playing := false, currentTime := 0 }
    (p.1, if unmutedVideoId == some p.1 then { el with muted := true } else el)

/-- Whether the play/pause effect's pass over entry `p` calls
`setUnmutedVideoId(null)` (the entry is not active and is the unmuted one). -/
def clearsUnmuted (videos : List FeedVideo) (currentIndex : Nat)
    (unmutedVideoId : Option Nat) (p : Nat × VideoEl) : Bool :=
  !(findIndexOf (fun v => v.id == p.1) videos == some currentIndex)
    && (unmutedVideoId == some p.1)

/-- The play/pause `useEffect` of the gesture variant: returns early when
the feed is empty, otherwise walks every registered element, and the
batched `setUnmutedVideoId(null)` calls leave `unmutedVideoId` cleared
exactly when some registered non-active element was the unmuted one. -/
def playPauseEffect (videos : List FeedVideo) (currentIndex : Nat)
    (unmutedVideoId : Option Nat) (refs : VideoRefs) : SyncResult :=
  if videos.isEmpty then { refs := refs, unmutedVideoId := unmutedVideoId }
  else
    { refs := refs.map (syncStep videos currentIndex unmutedVideoId)
      unmutedVideoId :=
        if refs.any (clearsUnmuted videos currentIndex unmutedVideoId) then none
        else unmutedVideoId }

/-- Settled state after an index transition: the play/pause effect runs,
then the mute-synchronization effect re-runs with the (possibly cleared)
`unmutedVideoId`. -/
def settleAudio (videos : List FeedVideo) (currentIndex : Nat)
    (unmutedVideoId : Option Nat) (refs : VideoRefs) : SyncResult :=
  let r := playPauseEffect videos currentIndex unmutedVideoId refs
  { refs := muteSyncEffect r.unmutedVideoId r.refs
    unmutedVideoId := r.unmutedVideoId }

/-- `videoRefs.current[id]` lookup. -/
def lookupRef (refs : VideoRefs) (id : Nat) : Option VideoEl :=
  (refs.find? (fun p => p.1 == id)).map Prod.snd

/-- Point update of a registered element (JS mutates the object held under
the key; keys are unique in a JS record). -/
def updateRef (refs : VideoRefs) (id : Nat) (f : VideoEl → VideoEl) : VideoRefs :=
  refs.map (fun p => if p.1 == id then (p.1, f p.2) else p)

/-- The `handleVideoClick` audio toggle: no-op when no element is
registered for `id`; if `id` is already unmuted, mute it and clear
`unmutedVideoId`; otherwise mute every element whose id differs from `id`,
unmute and request play on the target, and set `unmutedVideoId = id`. -/
def handleVideoClick (id : Nat) (unmutedVideoId : Option Nat) (refs : VideoRefs) :
    SyncResult :=
  match lookupRef refs id with
  | none => { refs := refs, unmutedVideoId := unmutedVideoId }
  | some _ =>
      if unmutedVideoId == some id then
        { refs := updateRef refs id (fun el => { el with muted := true })
          unmutedVideoId := none }
      else
        let refs1 := refs.map (fun p => (p.1, { p.2 with muted := p.1 != id }))
        let refs2 := updateRef refs1 id
          (fun el => { el with muted := false, playing := true })
        { refs := refs2, unmutedVideoId := some id }

/-- Component state touched by the gesture engine of the wheel/touch
variant, together with the registered elements. `hasMore` is the
pagination flag owned by the paginated variant's controller; the gesture
handlers never reference it, and carrying it here states that frame
condition. -/
structure EngineState where
  videos : List FeedVideo
  currentIndex : Nat
  unmutedVideoId : Option Nat
  refs : VideoRefs
  isScrolling : Bool
  isDragging : Bool
  startY : Int
  currentY : Int
  accumulatedDelta : Int
  targetIndex : Nat
  hasMore : Bool
deriving Repr, DecidableEq

/-- `Math.max(0, Math.min(targetIndex, videos.length - 1))`. -/
def clampIndex (targetIndex : Int) (len : Nat) : Int :=
  max 0 (min targetIndex ((len : Int) - 1))

/-- `direction = accumulatedDelta > 0 ? 1 : -1` (same expression in the
touch handler with `deltaY`). -/
def wheelDirection (delta : Int) : Int :=
  if 0 < delta then 1 else -1

/-- `snapToIndex(targetIndex, immediate)`: clamp, early-return when the
clamped target is already current and the call is not immediate,
early-return when no card exists at the clamped index (which, since the
clamp is non-negative, happens exactly when it is not below the feed
length), otherwise mark the engine snapping, record the target, zero the
accumulated delta, and set `currentIndex`. -/
def snapToIndex (s : EngineState) (targetIndex : Int) (immediate : Bool) : EngineState :=
  let clampedIndex := clampIndex targetIndex s.videos.length
  if clampedIndex = (s.currentIndex : Int) ∧ immediate = false then s
  else if clampedIndex < (s.videos.length : Int) then
    { s with isScrolling := true
             targetIndex := clampedIndex.toNat
             accumulatedDelta := 0
             currentIndex := clampedIndex.toNat }
  else s

/-- The `setTimeout` scheduled by `snapToIndex` firing after the animation
window: the engine stops snapping. -/
def snapTimeoutFire (s : EngineState) : EngineState :=
  { s with isScrolling := false }

/-- The idle-settle `setTimeout` scheduled by `handleWheel` firing ~150ms
after the last wheel event: the accumulated delta is zeroed. -/
def wheelTimeoutFire (s : EngineState) : EngineState :=
  { s with accumulatedDelta := 0 }

/-- `handleWheel`: swallowed while snapping; accumulates `deltaY`; once the
magnitude reaches the threshold, commits `currentIndex + direction` when it
is in range (snap, then zero the delta) and otherwise only applies boundary
resistance (a visual transform, no state field change). The threshold
(`cardHeight * 0.01`) is abstracted as a parameter. -/
def handleWheel (s : EngineState) (deltaY : Int) (threshold : Nat) : EngineState :=
  if s.isScrolling then s
  else
    let s1 := { s with accumulatedDelta := s.accumulatedDelta + deltaY }
    if threshold ≤ s1.accumulatedDelta.natAbs then
      let nextIndex := (s1.currentIndex : Int) + wheelDirection s1.accumulatedDelta
      if 0 ≤ nextIndex ∧ nextIndex < (s1.videos.length : Int) then
        let s2 := snapToIndex s1 nextIndex false
        { s2 with accumulatedDelta := 0 }
      else s1
    else s1

/-- `handleTouchStart`: ignored while snapping; begins a drag. -/
def handleTouchStart (s : EngineState) (touchY : Int) : EngineState :=
  if s.isScrolling then s
  else { s with isDragging := true, startY := touchY, currentY := touchY }

/-- `handleTouchMove`: ignored when not dragging or while snapping; tracks
the current touch position (the rubber-band transform is visual only). -/
def handleTouchMove (s : EngineState) (touchY : Int) : EngineState :=
  if !s.isDragging || s.isScrolling then s
  else { s with currentY := touchY }

/-- `handleTouchEnd`: ignored when not dragging; commits when the drag
distance reaches the threshold and the next index is in range, otherwise
bounces back visually; always ends the drag and zeroes the drag offsets.
The threshold (`cardHeight * 0.25`) is abstracted as a parameter. -/
def handleTouchEnd (s : EngineState) (threshold : Nat) : EngineState :=
  if !s.isDragging then s
  else
    let deltaY := s.startY - s.currentY
    let s1 :=
      if threshold ≤ deltaY.natAbs then
        let nextIndex := (s.currentIndex : Int) + wheelDirection deltaY
        if 0 ≤ nextIndex ∧ nextIndex < (s.videos.length : Int) then
          snapToIndex s nextIndex false
        else s
      else s
    { s1 with isDragging := false, startY := 0, currentY := 0 }

/-- `handleVideoClick` acting on the full engine state (it reads and
writes only `unmutedVideoId` and the registered elements). -/
def handleVideoClickApp (s : EngineState) (id : Nat) : EngineState :=
  let r := handleVideoClick id s.unmutedVideoId s.refs
  { s with refs := r.refs, unmutedVideoId := r.unmutedVideoId }

/-- Concrete feed item fixture used in witnesses. -/
def exampleFeedVideo (i : Nat) : FeedVideo :=
  { id := i, src := "", previewImage := "", duration := 0
    photographer := "", photographerUrl := "" }

/-- Concrete raw API record fixture with no renditions. -/
def exampleRawVideo (i : Nat) : PexelsVideo :=
  { id := i, duration := 0, image := "", user := none, video_files := [] }

/-- Twelve distinct feed items (one full page of `PER_PAGE = 12`). -/
def feed12 : List FeedVideo := (List.range 12).map exampleFeedVideo

/-- Component state right after a successful first full page. -/
def feedState12 : FetchState :=
  { videos := feed12, status := Status.success, errorMessage := none
    page := 1, hasMore := true, isLoadingMore := false }

/-- Initial component state (the `useState` initial values). -/
def initialFetchState : FetchState :=
  { videos := [], status := Status.idle, errorMessage := none
    page := 1, hasMore := true, isLoadingMore := false }

/-- Thirteen raw records: one more than the requested page size. -/
def raw13 : List PexelsVideo := (List.range 13).map exampleRawVideo

/-- Twelve raw records, none of which has a `video/mp4` rendition. -/
def raw12 : List PexelsVideo := (List.range 12).map exampleRawVideo

/-- Registered-element fixture. -/
def exampleEl : VideoEl := { playing := false, currentTime := 0, muted := true }

/-- Engine state at the last index of a one-item feed, mid-drag, used for
the boundary-gesture witness. -/
def boundaryEngineExample : EngineState :=
  { videos := [exampleFeedVideo 0], currentIndex := 0, unmutedVideoId := none
    refs := [(0, exampleEl)], isScrolling := false, isDragging := true
    startY := 200, currentY := 0, accumulatedDelta := 0, targetIndex := 0
    hasMore := true }

/-- Engine state with items id 3 and id 5 registered and id 3 unmuted. -/
def audioEngineExample : EngineState :=
  { videos := [exampleFeedVideo 3, exampleFeedVideo 5], currentIndex := 0
    unmutedVideoId := some 3
    refs := [(3, exampleEl), (5, exampleEl)], isScrolling := false
    isDragging := false, startY := 0, currentY := 0, accumulatedDelta := 0
    targetIndex := 0, hasMore := true }

/-- Engine state for the snap witness. -/
def snapEngineExample : EngineState :=
  { videos := [exampleFeedVideo 0, exampleFeedVideo 1], currentIndex := 0
    unmutedVideoId := none
    refs := [(0, exampleEl), (1, exampleEl)], isScrolling := false
    isDragging := false, startY := 0, currentY := 0, accumulatedDelta := 0
    targetIndex := 0, hasMore := true }

end PexelFeed

namespace PexelFeed

/-! ## Helper lemmas -/

theorem findIndexOf_eq_some {α : Type} {p : α → Bool} :
    ∀ {l : List α} {i : Nat}, findIndexOf p l = some i →
      ∃ a, l.get? i = some a ∧ p a = true := by
  intro l
  induction l with
  | nil => intro i h; simp [findIndexOf] at h
  | cons a as ih =>
    intro i h
    by_cases hp : p a
    · simp [findIndexOf, hp] at h
      exact h ▸ ⟨a, rfl, hp⟩
    · simp [findIndexOf, hp] at h
      obtain ⟨j, hj, rfl⟩ := h
      obtain ⟨b, hb, hpb⟩ := ih hj
      exact ⟨b, by simpa using hb, hpb⟩

/-! ## C5: pagination append -/

/-- C5 (counterexample): appending a fetched page that itself contains two
records with the same id yields a feed with a duplicated id, so the claim
as stated (for 'every fetched page') fails. -/
theorem append_page_dup_counterexample :
    ¬ (((appendUnique [] [exampleFeedVideo 1, exampleFeedVideo 1]).map
        FeedVideo.id).Nodup) := by
  decide

/-- C5 (amended): appending a fetched page keeps the previously loaded
items first in their prior order, then exactly the fetched items whose id
does not already occur, in response order; the feed never shrinks; and,
provided the prior feed's ids and the fetched page's ids are each
duplicate-free, the resulting feed has no two elements with the same id. -/
theorem append_page_spec (prev formatted : List FeedVideo)
    (hprev : (prev.map FeedVideo.id).Nodup)
    (hnew : (formatted.map FeedVideo.id).Nodup) :
    appendUnique prev formatted
      = prev ++ formatted.filter
          (fun v => !((prev.map FeedVideo.id).contains v.id))
    ∧ (appendUnique prev formatted).take prev.length = prev
    ∧ prev.length ≤ (appendUnique prev formatted).length
    ∧ ((appendUnique prev formatted).map FeedVideo.id).Nodup := by
  refine ⟨rfl, ?_, ?_, ?_⟩
  · simp [appendUnique]
  · simp [appendUnique]
  · simp only [appendUnique, List.map_append]
    refine List.Nodup.append hprev ?_ ?_
    · exact hnew.sublist ((List.filter_sublist formatted).map FeedVideo.id)
    · intro a ha hb
      simp only [List.mem_map, List.mem_filter] at hb
      obtain ⟨v, ⟨hv, hvne⟩, rfl⟩ := hb
      simp only [List.mem_map] at ha
      obtain ⟨w, hw, hwid⟩ := ha
      simp at hvne
      exact hvne w hw hwid

/-- C5 witness. -/
theorem append_page_spec_witness :
    (([exampleFeedVideo 1].map FeedVideo.id).Nodup
      ∧ (([exampleFeedVideo 1, exampleFeedVideo 2].map FeedVideo.id).Nodup))
    ∧ (appendUnique [exampleFeedVideo 1] [exampleFeedVideo 1, exampleFeedVideo 2]
          = [exampleFeedVideo 1] ++ [exampleFeedVideo 1, exampleFeedVideo 2].filter
              (fun v => !(([exampleFeedVideo 1].map FeedVideo.id).contains v.id))
        ∧ (appendUnique [exampleFeedVideo 1]
            [exampleFeedVideo 1, exampleFeedVideo 2]).take 1 = [exampleFeedVideo 1]
        ∧ (1 : Nat) ≤ (appendUnique [exampleFeedVideo 1]
            [exampleFeedVideo 1, exampleFeedVideo 2]).length
        ∧ ((appendUnique [exampleFeedVideo 1]
            [exampleFeedVideo 1, exampleFeedVideo 2]).map FeedVideo.id).Nodup) :=
  ⟨⟨by decide, by decide⟩, by
    simpa using append_page_spec [exampleFeedVideo 1]
      [exampleFeedVideo 1, exampleFeedVideo 2] (by decide) (by decide)⟩

/-! ## C6: hasMore and failed append fetches -/

/-- C6 (counterexample): a successful page of 13 records — more than the
requested size, not fewer — also sets `hasMore` to false, because the code
compares for equality with `PER_PAGE`; so 'hasMore becomes false exactly
when the page returned fewer items than requested' fails as stated. -/
theorem has_more_counterexample :
    (fetchVideos (some "key") feedState12 2 true
        (FetchResult.success raw13)).state.hasMore = false
    ∧ ¬ raw13.length < PER_PAGE := by
  exact ⟨by decide, by decide⟩

/-- C6 (amended): after a successful fetch, `hasMore` equals the comparison
of the raw response record count with `PER_PAGE` (so for responses of at
most `PER_PAGE` records it becomes false exactly when fewer were returned);
and a failed append fetch through `loadMore` leaves the entire state —
loaded videos, status, error message, page, and `hasMore` — unchanged. -/
theorem has_more_spec (env : Option String) (s : FetchState) (pageToLoad : Nat)
    (append : Bool) (raw : List PexelsVideo) (ab : Bool) (msg : String)
    (hkey : apiKey env ≠ "") (hload : s.isLoadingMore = false) :
    (fetchVideos env s pageToLoad append (FetchResult.success raw)).state.hasMore
      = (raw.length == PER_PAGE)
    ∧ (raw.length ≤ PER_PAGE →
        ((fetchVideos env s pageToLoad append
            (FetchResult.success raw)).state.hasMore = false
          ↔ raw.length < PER_PAGE))
    ∧ (loadMore env s (FetchResult.failure ab msg)).1 = s := by
  have hk : (apiKey env == "") = false := by
    simpa using hkey
  have hmain :
      (fetchVideos env s pageToLoad append (FetchResult.success raw)).state.hasMore
        = (raw.length == PER_PAGE) := by
    cases append <;> simp [fetchVideos, hk]
  refine ⟨hmain, ?_, ?_⟩
  · intro hle
    rw [hmain]
    constructor
    · intro h
      have : raw.length ≠ PER_PAGE := by simpa using h
      omega
    · intro h
      have : raw.length ≠ PER_PAGE := by omega
      simpa using this
  · obtain ⟨v, st, em, pg, hm, lm⟩ := s
    simp only at hload
    subst hload
    cases hm <;> simp [loadMore, fetchVideos, hk]

/-- C6 witness. -/
theorem has_more_spec_witness :
    (apiKey (some "key") ≠ "" ∧ initialFetchState.isLoadingMore = false)
    ∧ ((fetchVideos (some "key") initialFetchState 1 true
          (FetchResult.success raw12)).state.hasMore = (raw12.length == PER_PAGE)
      ∧ (raw12.length ≤ PER_PAGE →
          ((fetchVideos (some "key") initialFetchState 1 true
              (FetchResult.success raw12)).state.hasMore = false
            ↔ raw12.length < PER_PAGE))
      ∧ (loadMore (some "key") initialFetchState (FetchResult.failure false "boom")).1
          = initialFetchState) :=
  ⟨⟨by decide, by decide⟩,
    has_more_spec (some "key") initialFetchState 1 true raw12 false "boom"
      (by decide) (by decide)⟩

/-! ## C8: lookahead pagination trigger -/

/-- C8 (counterexample): with 12 loaded items, `hasMore = true` and no
append in flight, the lookahead effect already fires at `currentIndex = 7`
(`12 - (7+1) = 4 ≤ 4`), and no request was issued during the transitions to
indices 1..6 — contradicting the claim that the single request is triggered
once `currentIndex` reaches 8. -/
theorem lookahead_counterexample :
    (lookaheadEffect (some "key") feedState12 7).2 = some 2
    ∧ (advanceThrough (some "key") feedState12 [1, 2, 3, 4, 5, 6]).2 = ([] : List Nat)
    ∧ (7 : Nat) < 8 := by
  exact ⟨by decide, by decide, by decide⟩

/-- C8 (amended): with 12 items loaded (a full page, `hasMore = true`), a
lookahead window of 4 and `currentIndex` starting at 0, advancing forward
one step at a time triggers exactly one pagination request (for page 2)
while that request stays in flight, and it is triggered once `currentIndex`
reaches 7 (`12 - (7+1) = 4 ≤ 4`): no request for indices 1..6, the single
request upon reaching 7, and no further request through index 11. -/
theorem lookahead_spec :
    (advanceThrough (some "key") feedState12 (List.range' 1 11)).2 = [2]
    ∧ (advanceThrough (some "key") feedState12 (List.range' 1 6)).2 = ([] : List Nat)
    ∧ (advanceThrough (some "key") feedState12 (List.range' 1 7)).2 = [2] := by
  exact ⟨by decide, by decide, by decide⟩

/-! ## C9: missing API key -/

/-- C9 (counterexample): when the API key env variable is absent, the
hardcoded fallback makes `API_KEY` non-empty, so the initial load does
issue a network request and does not enter the error state — contradicting
the claim that an absent key aborts the load with 'Missing Pexels API
key.'. -/
theorem missing_key_counterexample :
    apiKey none ≠ ""
    ∧ (fetchVideos none initialFetchState 1 false
        (FetchResult.success [])).requested = some 1
    ∧ (fetchVideos none initialFetchState 1 false
        (FetchResult.success [])).state.status ≠ Status.error := by
  exact ⟨by decide, by decide, by decide⟩

/-- C9 (amended): when the resolved API key is the empty string (for
example the env variable is set to an empty value; an absent variable
instead falls back to a hardcoded key and a fetch is issued), the initial
load enters the error state with the message 'Missing Pexels API key.',
no network request is issued, and the loaded list is left untouched
(empty on the initial load). -/
theorem missing_key_spec (env : Option String) (s : FetchState)
    (result : FetchResult) (hkey : apiKey env = "") :
    (fetchVideos env s 1 false result).state.status = Status.error
    ∧ (fetchVideos env s 1 false result).state.errorMessage
        = some "Missing Pexels API key."
    ∧ (fetchVideos env s 1 false result).requested = none
    ∧ (fetchVideos env s 1 false result).state.videos = s.videos := by
  have hk : (apiKey env == "") = true := by simpa using hkey
  simp [fetchVideos, hk]

/-- C9 witness. -/
theorem missing_key_spec_witness :
    apiKey (some "") = ""
    ∧ ((fetchVideos (some "") initialFetchState 1 false
          (FetchResult.success [])).state.status = Status.error
      ∧ (fetchVideos (some "") initialFetchState 1 false
          (FetchResult.success [])).state.errorMessage
            = some "Missing Pexels API key."
      ∧ (fetchVideos (some "") initialFetchState 1 false
          (FetchResult.success [])).requested = none
      ∧ (fetchVideos (some "") initialFetchState 1 false
          (FetchResult.success [])).state.videos = initialFetchState.videos) :=
  ⟨by decide,
    missing_key_spec (some "") initialFetchState (FetchResult.success []) (by decide)⟩

/-! ## C10: hasMore is computed before rendition filtering -/

/-- C10: `hasMore` is computed from the raw response record count before
rendition filtering, so a successful append whose 12 records all lack a
`video/mp4` rendition adds zero items to the feed while `hasMore` stays
true. -/
theorem has_more_prefilter (env : Option String) (s : FetchState)
    (pageToLoad : Nat) (raw : List PexelsVideo)
    (hkey : apiKey env ≠ "")
    (hnomp4 : ∀ v ∈ raw, ∀ f ∈ v.video_files, f.file_type ≠ "video/mp4")
    (hfull : raw.length = PER_PAGE) :
    (fetchVideos env s pageToLoad true (FetchResult.success raw)).state.hasMore = true
    ∧ (fetchVideos env s pageToLoad true
        (FetchResult.success raw)).state.videos = s.videos
    ∧ (fetchVideos env s pageToLoad true (FetchResult.success raw)).loaded = true := by
  have hk : (apiKey env == "") = false := by simpa using hkey
  have hfmt : formatVideos raw = [] := by
    rw [formatVideos, List.filterMap_eq_nil_iff]
    intro v hv
    have hfil : v.video_files.filter (fun f => f.file_type == "video/mp4") = [] := by
      rw [List.filter_eq_nil_iff]
      intro f hf
      simpa using hnomp4 v hv f hf
    simp [formatVideo, hfil]
  simp [fetchVideos, hk, hfmt, appendUnique, hfull, PER_PAGE]

/-- C10 witness. -/
theorem has_more_prefilter_witness :
    (apiKey (some "key") ≠ ""
      ∧ (∀ v ∈ raw12, ∀ f ∈ v.video_files, f.file_type ≠ "video/mp4")
      ∧ raw12.length = PER_PAGE)
    ∧ ((fetchVideos (some "key") feedState12 2 true
          (FetchResult.success raw12)).state.hasMore = true
      ∧ (fetchVideos (some "key") feedState12 2 true
          (FetchResult.success raw12)).state.videos = feedState12.videos
      ∧ (fetchVideos (some "key") feedState12 2 true
          (FetchResult.success raw12)).loaded = true) :=
  ⟨⟨by decide, by decide, by decide⟩,
    has_more_prefilter (some "key") feedState12 2 raw12
      (by decide) (by decide) (by decide)⟩

/-! ## Playback-synchronizer helper lemmas -/

theorem syncStep_spec (videos : List FeedVideo) (ci : Nat) (unmuted : Option Nat)
    (p : Nat × VideoEl) :
    (syncStep videos ci unmuted p).1 = p.1
    ∧ (syncStep videos ci unmuted p).2.playing
        = (findIndexOf (fun v => v.id == p.1) videos == some ci)
    ∧ ((findIndexOf (fun v => v.id == p.1) videos == some ci) = false →
        (syncStep videos ci unmuted p).2.currentTime = 0) := by
  by_cases h : (findIndexOf (fun v => v.id == p.1) videos == some ci) = true
  · refine ⟨?_, ?_, ?_⟩ <;> simp [syncStep, h]
  · have hb : (findIndexOf (fun v => v.id == p.1) videos == some ci) = false := by
      simpa using h
    refine ⟨?_, ?_, ?_⟩
    · simp only [syncStep, hb, Bool.false_eq_true, if_false]
    · simp only [syncStep, hb, Bool.false_eq_true, if_false]
      split <;> rfl
    · intro _
      simp only [syncStep, hb, Bool.false_eq_true, if_false]
      split <;> rfl

theorem muteStep_spec (u : Option Nat) (p : Nat × VideoEl) :
    (muteStep u p).1 = p.1
    ∧ ((muteStep u p).2.muted = false ↔ u = some p.1)
    ∧ (u = none → (muteStep u p).2.muted = true) := by
  refine ⟨rfl, ?_, ?_⟩
  · cases u with
    | none => simp [muteStep]
    | some x => by_cases h : x = p.1 <;> simp [muteStep, h]
  · intro h
    subst h
    simp [muteStep]

theorem refs_nil_of_videos_nil {refs : VideoRefs}
    (hsub : ∀ p ∈ refs, p.1 ∈ ([] : List FeedVideo).map FeedVideo.id) :
    refs = [] := by
  cases refs with
  | nil => rfl
  | cons a l =>
    have := hsub a (List.mem_cons_self a l)
    simp at this

/-! ## C1: single active playback -/

/-- C1: after the play/pause effect settles, the playing elements are
exactly those whose feed index equals `currentIndex`; hence at most one
registered element is playing and it carries the id of the video at
`currentIndex`; every non-active element is reset to position zero; and an
empty feed has no registered (hence no playing) element. -/
theorem playback_single_active (videos : List FeedVideo) (ci : Nat)
    (unmuted : Option Nat) (refs : VideoRefs)
    (hkeys : (refs.map Prod.fst).Nodup)
    (hsub : ∀ p ∈ refs, p.1 ∈ videos.map FeedVideo.id) :
    (∀ p ∈ (playPauseEffect videos ci unmuted refs).refs, p.2.playing = true →
        (videos.get? ci).map FeedVideo.id = some p.1)
    ∧ (∀ p ∈ (playPauseEffect videos ci unmuted refs).refs,
        ∀ q ∈ (playPauseEffect videos ci unmuted refs).refs,
          p.2.playing = true → q.2.playing = true → p = q)
    ∧ (videos = [] → ∀ p ∈ (playPauseEffect videos ci unmuted refs).refs,
        p.2.playing = false)
    ∧ (videos ≠ [] → ∀ p ∈ (playPauseEffect videos ci unmuted refs).refs,
        p.2.playing = false → p.2.currentTime = 0) := by
  by_cases hemp : videos = []
  · subst hemp
    have hrefs : refs = [] := refs_nil_of_videos_nil hsub
    subst hrefs
    simp [playPauseEffect]
  · have hne : videos.isEmpty = false := by
      cases videos with
      | nil => exact absurd rfl hemp
      | cons a l => rfl
    have hout : (playPauseEffect videos ci unmuted refs).refs
        = refs.map (syncStep videos ci unmuted) := by
      simp [playPauseEffect, hne]
    rw [hout]
    refine ⟨?_, ?_, fun h => absurd h hemp, ?_⟩
    · intro p hp hplaying
      obtain ⟨q, hq, rfl⟩ := List.mem_map.mp hp
      obtain ⟨hf, hpl, -⟩ := syncStep_spec videos ci unmuted q
      rw [hpl] at hplaying
      have hfind : findIndexOf (fun v => v.id == q.1) videos = some ci := by
        simpa using hplaying
      obtain ⟨a, ha, hpa⟩ := findIndexOf_eq_some hfind
      rw [hf, ha]
      simp only [Option.map_some']
      simp at hpa
      simp [hpa]
    · intro p hp q hq hpp hpq
      obtain ⟨p0, hp0, rfl⟩ := List.mem_map.mp hp
      obtain ⟨q0, hq0, rfl⟩ := List.mem_map.mp hq
      obtain ⟨hfp, hplp, -⟩ := syncStep_spec videos ci unmuted p0
      obtain ⟨hfq, hplq, -⟩ := syncStep_spec videos ci unmuted q0
      rw [hplp] at hpp
      rw [hplq] at hpq
      have hfindp : findIndexOf (fun v => v.id == p0.1) videos = some ci := by
        simpa using hpp
      have hfindq : findIndexOf (fun v => v.id == q0.1) videos = some ci := by
        simpa using hpq
      obtain ⟨a, ha, hpa⟩ := findIndexOf_eq_some hfindp
      obtain ⟨b, hb, hpb⟩ := findIndexOf_eq_some hfindq
      rw [ha] at hb
      injection hb with hab
      simp at hpa hpb
      have hid : p0.1 = q0.1 := by rw [← hpa, ← hpb, hab]
      rw [List.inj_on_of_nodup_map hkeys hp0 hq0 hid]
    · intro _ p hp hplaying
      obtain ⟨q, hq, rfl⟩ := List.mem_map.mp hp
      obtain ⟨hf, hpl, hctq⟩ := syncStep_spec videos ci unmuted q
      rw [hpl] at hplaying
      exact hctq hplaying

/-- C1 witness. -/
theorem playback_single_active_witness :
    ((([(0, exampleEl), (1, exampleEl)] : VideoRefs).map Prod.fst).Nodup
      ∧ ∀ p ∈ ([(0, exampleEl), (1, exampleEl)] : VideoRefs),
          p.1 ∈ [exampleFeedVideo 0, exampleFeedVideo 1].map FeedVideo.id)
    ∧ ((∀ p ∈ (playPauseEffect [exampleFeedVideo 0, exampleFeedVideo 1] 1 (some 0)
          [(0, exampleEl), (1, exampleEl)]).refs, p.2.playing = true →
        ([exampleFeedVideo 0, exampleFeedVideo 1].get? 1).map FeedVideo.id = some p.1)
      ∧ (∀ p ∈ (playPauseEffect [exampleFeedVideo 0, exampleFeedVideo 1] 1 (some 0)
          [(0, exampleEl), (1, exampleEl)]).refs,
          ∀ q ∈ (playPauseEffect [exampleFeedVideo 0, exampleFeedVideo 1] 1 (some 0)
            [(0, exampleEl), (1, exampleEl)]).refs,
            p.2.playing = true → q.2.playing = true → p = q)
      ∧ ([exampleFeedVideo 0, exampleFeedVideo 1] = [] →
          ∀ p ∈ (playPauseEffect [exampleFeedVideo 0, exampleFeedVideo 1] 1 (some 0)
            [(0, exampleEl), (1, exampleEl)]).refs, p.2.playing = false)
      ∧ ([exampleFeedVideo 0, exampleFeedVideo 1] ≠ [] →
          ∀ p ∈ (playPauseEffect [exampleFeedVideo 0, exampleFeedVideo 1] 1 (some 0)
            [(0, exampleEl), (1, exampleEl)]).refs,
            p.2.playing = false → p.2.currentTime = 0)) :=
  ⟨⟨by decide, by decide⟩,
    playback_single_active [exampleFeedVideo 0, exampleFeedVideo 1] 1 (some 0)
      [(0, exampleEl), (1, exampleEl)] (by decide) (by decide)⟩

/-! ## C2: at most one unmuted id, tracking currentIndex -/

/-- C2: once an index transition settles (play/pause effect followed by the
mute-synchronization effect), at most one registered element is unmuted;
an unmuted element is the one named by `unmutedVideoId` and carries the id
of the video at `currentIndex`; and when `currentIndex` moves away from the
unmuted video's index, `unmutedVideoId` is cleared to `null` and every
element (in particular that video) is muted. -/
theorem unmuted_tracks_current (videos : List FeedVideo) (ci : Nat)
    (unmuted : Option Nat) (refs : VideoRefs)
    (hkeys : (refs.map Prod.fst).Nodup)
    (hsub : ∀ p ∈ refs, p.1 ∈ videos.map FeedVideo.id) :
    (∀ p ∈ (settleAudio videos ci unmuted refs).refs,
      ∀ q ∈ (settleAudio videos ci unmuted refs).refs,
        p.2.muted = false → q.2.muted = false → p = q)
    ∧ (∀ p ∈ (settleAudio videos ci unmuted refs).refs, p.2.muted = false →
        (settleAudio videos ci unmuted refs).unmutedVideoId = some p.1
        ∧ (videos.get? ci).map FeedVideo.id = some p.1)
    ∧ (∀ u, unmuted = some u → u ∈ refs.map Prod.fst →
        findIndexOf (fun v => v.id == u) videos ≠ some ci →
        (settleAudio videos ci unmuted refs).unmutedVideoId = none
        ∧ ∀ p ∈ (settleAudio videos ci unmuted refs).refs, p.2.muted = true) := by
  by_cases hemp : videos = []
  · subst hemp
    have hrefs : refs = [] := refs_nil_of_videos_nil hsub
    subst hrefs
    refine ⟨?_, ?_, ?_⟩
    · simp [settleAudio, playPauseEffect, muteSyncEffect]
    · simp [settleAudio, playPauseEffect, muteSyncEffect]
    · intro u hu humem hnact
      simp at humem
  · have hne : videos.isEmpty = false := by
      cases videos with
      | nil => exact absurd rfl hemp
      | cons a l => rfl
    set u' := if refs.any (clearsUnmuted videos ci unmuted) then none else unmuted
      with hu'
    have hrefs_eq : (settleAudio videos ci unmuted refs).refs
        = (refs.map (syncStep videos ci unmuted)).map (muteStep u') := by
      simp [settleAudio, playPauseEffect, muteSyncEffect, hne, hu']
    have hunm_eq : (settleAudio videos ci unmuted refs).unmutedVideoId = u' := by
      simp [settleAudio, playPauseEffect, hne, hu']
    have hmem_char : ∀ p ∈ (settleAudio videos ci unmuted refs).refs,
        ∃ q0 ∈ refs, p = muteStep u' (syncStep videos ci unmuted q0) := by
      intro p hp
      rw [hrefs_eq] at hp
      obtain ⟨q, hq, rfl⟩ := List.mem_map.mp hp
      obtain ⟨q0, hq0, rfl⟩ := List.mem_map.mp hq
      exact ⟨q0, hq0, rfl⟩
    have hfst_comp : ∀ q0 : Nat × VideoEl,
        (muteStep u' (syncStep videos ci unmuted q0)).1 = q0.1 := by
      intro q0
      rw [(muteStep_spec u' _).1, (syncStep_spec videos ci unmuted q0).1]
    have hunmuted_of : ∀ q0 : Nat × VideoEl,
        (muteStep u' (syncStep videos ci unmuted q0)).2.muted = false →
        u' = some q0.1 := by
      intro q0 hm
      have := (muteStep_spec u' (syncStep videos ci unmuted q0)).2.1.mp hm
      rwa [(syncStep_spec videos ci unmuted q0).1] at this
    have hactive_of : ∀ q0 ∈ refs, u' = some q0.1 →
        findIndexOf (fun v => v.id == q0.1) videos = some ci := by
      intro q0 hq0 hup
      by_cases hany : refs.any (clearsUnmuted videos ci unmuted) = true
      · rw [hu', if_pos hany] at hup
        cases hup
      · have hanyf : refs.any (clearsUnmuted videos ci unmuted) = false := by
          simpa using hany

        have hun : unmuted = some q0.1 := by rwa [hu', if_neg hany] at hup
        have hcl : clearsUnmuted videos ci unmuted q0 = false := by
          rw [List.any_eq_false] at hanyf
          simpa using hanyf q0 hq0
        unfold clearsUnmuted at hcl
        rw [hun] at hcl
        simpa using hcl
    refine ⟨?_, ?_, ?_⟩
    · intro p hp q hq hmp hmq
      obtain ⟨p0, hp0, rfl⟩ := hmem_char p hp
      obtain ⟨q0, hq0, rfl⟩ := hmem_char q hq
      have h1 := hunmuted_of p0 hmp
      have h2 := hunmuted_of q0 hmq
      rw [h1] at h2
      injection h2 with hid
      rw [List.inj_on_of_nodup_map hkeys hp0 hq0 hid]
    · intro p hp hm
      obtain ⟨q0, hq0, rfl⟩ := hmem_char p hp
      have hup := hunmuted_of q0 hm
      have hact := hactive_of q0 hq0 hup
      obtain ⟨a, ha, hpa⟩ := findIndexOf_eq_some hact
      refine ⟨?_, ?_⟩
      · rw [hfst_comp q0, hunm_eq]
        exact hup
      · rw [ha, hfst_comp q0]
        simp at hpa
        simp [hpa]
    · intro u hu humem hnact
      obtain ⟨q0, hq0, hq01⟩ : ∃ q0 ∈ refs, q0.1 = u := by
        simpa [List.mem_map] using humem
      have hcl : clearsUnmuted videos ci unmuted q0 = true := by
        have h1 : (findIndexOf (fun v => v.id == u) videos == some ci) = false := by
          simpa using hnact
        unfold clearsUnmuted
        rw [hq01, hu, h1]
        simp
      have hany : refs.any (clearsUnmuted videos ci unmuted) = true :=
        List.any_eq_true.mpr ⟨q0, hq0, hcl⟩
      have hu'none : u' = none := by rw [hu', if_pos hany]
      refine ⟨by rw [hunm_eq, hu'none], ?_⟩
      intro p hp
      obtain ⟨p0, hp0, rfl⟩ := hmem_char p hp
      exact (muteStep_spec u' (syncStep videos ci unmuted p0)).2.2 hu'none

/-- C2 witness. -/
theorem unmuted_tracks_current_witness :
    ((([(0, exampleEl), (1, exampleEl)] : VideoRefs).map Prod.fst).Nodup
      ∧ ∀ p ∈ ([(0, exampleEl), (1, exampleEl)] : VideoRefs),
          p.1 ∈ [exampleFeedVideo 0, exampleFeedVideo 1].map FeedVideo.id)
    ∧ ((∀ p ∈ (settleAudio [exampleFeedVideo 0, exampleFeedVideo 1] 0 (some 1)
          [(0, exampleEl), (1, exampleEl)]).refs,
        ∀ q ∈ (settleAudio [exampleFeedVideo 0, exampleFeedVideo 1] 0 (some 1)
          [(0, exampleEl), (1, exampleEl)]).refs,
          p.2.muted = false → q.2.muted = false → p = q)
      ∧ (∀ p ∈ (settleAudio [exampleFeedVideo 0, exampleFeedVideo 1] 0 (some 1)
          [(0, exampleEl), (1, exampleEl)]).refs, p.2.muted = false →
          (settleAudio [exampleFeedVideo 0, exampleFeedVideo 1] 0 (some 1)
            [(0, exampleEl), (1, exampleEl)]).unmutedVideoId = some p.1
          ∧ ([exampleFeedVideo 0, exampleFeedVideo 1].get? 0).map FeedVideo.id
              = some p.1)
      ∧ (∀ u, (some 1 : Option Nat) = some u →
          u ∈ ([(0, exampleEl), (1, exampleEl)] : VideoRefs).map Prod.fst →
          findIndexOf (fun v => v.id == u) [exampleFeedVideo 0, exampleFeedVideo 1]
            ≠ some 0 →
          (settleAudio [exampleFeedVideo 0, exampleFeedVideo 1] 0 (some 1)
            [(0, exampleEl), (1, exampleEl)]).unmutedVideoId = none
          ∧ ∀ p ∈ (settleAudio [exampleFeedVideo 0, exampleFeedVideo 1] 0 (some 1)
              [(0, exampleEl), (1, exampleEl)]).refs, p.2.muted = true)) :=
  ⟨⟨by decide, by decide⟩,
    unmuted_tracks_current [exampleFeedVideo 0, exampleFeedVideo 1] 0 (some 1)
      [(0, exampleEl), (1, exampleEl)] (by decide) (by decide)⟩

/-! ## C3: audio toggling -/

theorem mem_updateRef {refs : VideoRefs} {i : Nat} {f : VideoEl → VideoEl}
    {p : Nat × VideoEl} (hp : p ∈ updateRef refs i f) :
    ∃ q ∈ refs, p = if q.1 == i then (q.1, f q.2) else q := by
  simp only [updateRef] at hp
  obtain ⟨q, hq, rfl⟩ := List.mem_map.mp hp
  exact ⟨q, hq, rfl⟩

theorem mem_updateRef_of_mem {refs : VideoRefs} {i : Nat} {f : VideoEl → VideoEl}
    {q : Nat × VideoEl} (hq : q ∈ refs) :
    (if q.1 == i then (q.1, f q.2) else q) ∈ updateRef refs i f := by
  simp only [updateRef]
  exact List.mem_map_of_mem _ hq

theorem lookupRef_ne_none {refs : VideoRefs} {i : Nat} :
    lookupRef refs i ≠ none ↔ ∃ p ∈ refs, p.1 = i := by
  constructor
  · intro h
    cases hf : refs.find? (fun p => p.1 == i) with
    | none => simp [lookupRef, hf] at h
    | some q =>
      have hqm := List.mem_of_find?_eq_some hf
      have hqp := List.find?_some hf
      exact ⟨q, hqm, by simpa using hqp⟩
  · rintro ⟨p, hp, rfl⟩
    have hs : (refs.find? (fun q => q.1 == p.1)).isSome :=
      List.find?_isSome.mpr ⟨p, hp, by simp⟩
    obtain ⟨q, hq⟩ := Option.isSome_iff_exists.mp hs
    simp [lookupRef, hq]

/-- C3: for a registered id, toggling audio on the already-unmuted id mutes
it and clears `unmutedVideoId`; toggling any other id mutes every other
element, unmutes and starts the target, and sets `unmutedVideoId` to it;
consequently toggling the same (not currently unmuted) id twice returns the
system to the fully-muted state with `unmutedVideoId = null`, all elements
muted, and `currentIndex` unchanged. -/
theorem toggle_audio_spec (s : EngineState) (i : Nat)
    (hreg : lookupRef s.refs i ≠ none) :
    (s.unmutedVideoId = some i →
        (handleVideoClickApp s i).unmutedVideoId = none
        ∧ ∀ p ∈ (handleVideoClickApp s i).refs, p.1 = i → p.2.muted = true)
    ∧ (s.unmutedVideoId ≠ some i →
        (handleVideoClickApp s i).unmutedVideoId = some i
        ∧ ∀ p ∈ (handleVideoClickApp s i).refs,
            (p.1 ≠ i → p.2.muted = true)
            ∧ (p.1 = i → p.2.muted = false ∧ p.2.playing = true))
    ∧ (s.unmutedVideoId ≠ some i →
        (handleVideoClickApp (handleVideoClickApp s i) i).unmutedVideoId = none
        ∧ (∀ p ∈ (handleVideoClickApp (handleVideoClickApp s i) i).refs,
            p.2.muted = true)
        ∧ (handleVideoClickApp (handleVideoClickApp s i) i).currentIndex
            = s.currentIndex) := by
  obtain ⟨el, hl⟩ : ∃ el, lookupRef s.refs i = some el := by
    cases h : lookupRef s.refs i with
    | none => exact absurd h hreg
    | some el => exact ⟨el, rfl⟩
  have hb : s.unmutedVideoId ≠ some i →
      (handleVideoClickApp s i).unmutedVideoId = some i
      ∧ (handleVideoClickApp s i).refs
          = updateRef (s.refs.map (fun p => (p.1, { p.2 with muted := p.1 != i }))) i
              (fun el => { el with muted := false, playing := true }) := by
    intro hu
    have hbeq : (s.unmutedVideoId == some i) = false := by simpa using hu
    constructor
    · simp [handleVideoClickApp, handleVideoClick, hl, hbeq]
    · simp [handleVideoClickApp, handleVideoClick, hl, hbeq]
  have hbprops : s.unmutedVideoId ≠ some i →
      ∀ p ∈ (handleVideoClickApp s i).refs,
        (p.1 ≠ i → p.2.muted = true)
        ∧ (p.1 = i → p.2.muted = false ∧ p.2.playing = true) := by
    intro hu p hp
    rw [(hb hu).2] at hp
    obtain ⟨q, hq, rfl⟩ := mem_updateRef hp
    obtain ⟨r, hr, rfl⟩ := List.mem_map.mp hq
    by_cases hri : (r.1 == i) = true
    · have hr1 : r.1 = i := by simpa using hri
      simp [hri, hr1]
    · have hri' : (r.1 == i) = false := by simpa using hri
      have hr1 : r.1 ≠ i := by simpa using hri'
      simp [hri', hr1]
  refine ⟨?_, ?_, ?_⟩
  · intro hu
    have ha2 : (handleVideoClickApp s i).refs
        = updateRef s.refs i (fun el => { el with muted := true }) := by
      simp [handleVideoClickApp, handleVideoClick, hl, hu]
    refine ⟨by simp [handleVideoClickApp, handleVideoClick, hl, hu], ?_⟩
    intro p hp hpid
    rw [ha2] at hp
    obtain ⟨q, hq, rfl⟩ := mem_updateRef hp
    by_cases hqi : (q.1 == i) = true
    · simp [hqi]
    · simp only [hqi, Bool.false_eq_true, if_false] at hpid ⊢
      exact absurd hpid (by simpa using hqi)
  · intro hu
    exact ⟨(hb hu).1, hbprops hu⟩
  · intro hu
    have hs1u : (handleVideoClickApp s i).unmutedVideoId = some i := (hb hu).1
    have hs1refs := (hb hu).2
    have hreg1 : lookupRef (handleVideoClickApp s i).refs i ≠ none := by
      rw [hs1refs, lookupRef_ne_none]
      obtain ⟨p0, hp0, hp0i⟩ := lookupRef_ne_none.mp hreg
      have h1 : (p0.1, { p0.2 with muted := p0.1 != i })
          ∈ s.refs.map (fun p => (p.1, { p.2 with muted := p.1 != i })) :=
        List.mem_map_of_mem _ hp0
      refine ⟨_, mem_updateRef_of_mem
        (f := fun el => { el with muted := false, playing := true }) h1, ?_⟩
      split <;> simp [hp0i]
    obtain ⟨el1, hl1⟩ : ∃ e, lookupRef (handleVideoClickApp s i).refs i = some e := by
      cases h : lookupRef (handleVideoClickApp s i).refs i with
      | none => exact absurd h hreg1
      | some e => exact ⟨e, rfl⟩
    have hs2 : handleVideoClick i (handleVideoClickApp s i).unmutedVideoId
        (handleVideoClickApp s i).refs
        = { refs := updateRef (handleVideoClickApp s i).refs i
              (fun el => { el with muted := true })
            unmutedVideoId := none } := by
      simp [handleVideoClick, hl1, hs1u]
    refine ⟨?_, ?_, rfl⟩
    · show (handleVideoClick i (handleVideoClickApp s i).unmutedVideoId
        (handleVideoClickApp s i).refs).unmutedVideoId = none
      rw [hs2]
    · intro p hp
      have hp' : p ∈ (handleVideoClick i (handleVideoClickApp s i).unmutedVideoId
          (handleVideoClickApp s i).refs).refs := hp
      rw [hs2] at hp'
      have hp'' : p ∈ updateRef (handleVideoClickApp s i).refs i
          (fun el => { el with muted := true }) := hp'
      obtain ⟨q, hq, rfl⟩ := mem_updateRef hp''
      by_cases hqi : (q.1 == i) = true
      · simp [hqi]
      · have hq1 : q.1 ≠ i := by simpa using hqi
        simp only [hqi, Bool.false_eq_true, if_false]
        exact (hbprops hu q hq).1 hq1

/-- C3 witness (the id=3/id=5 scenario: id 3 unmuted, toggle id 5). -/
theorem toggle_audio_spec_witness :
    lookupRef audioEngineExample.refs 5 ≠ none
    ∧ ((audioEngineExample.unmutedVideoId = some 5 →
          (handleVideoClickApp audioEngineExample 5).unmutedVideoId = none
          ∧ ∀ p ∈ (handleVideoClickApp audioEngineExample 5).refs,
              p.1 = 5 → p.2.muted = true)
      ∧ (audioEngineExample.unmutedVideoId ≠ some 5 →
          (handleVideoClickApp audioEngineExample 5).unmutedVideoId = some 5
          ∧ ∀ p ∈ (handleVideoClickApp audioEngineExample 5).refs,
              (p.1 ≠ 5 → p.2.muted = true)
              ∧ (p.1 = 5 → p.2.muted = false ∧ p.2.playing = true))
      ∧ (audioEngineExample.unmutedVideoId ≠ some 5 →
          (handleVideoClickApp (handleVideoClickApp audioEngineExample 5)
            5).unmutedVideoId = none
          ∧ (∀ p ∈ (handleVideoClickApp (handleVideoClickApp audioEngineExample 5)
              5).refs, p.2.muted = true)
          ∧ (handleVideoClickApp (handleVideoClickApp audioEngineExample 5)
              5).currentIndex = audioEngineExample.currentIndex)) :=
  ⟨by decide, toggle_audio_spec audioEngineExample 5 (by decide)⟩

/-! ## C4: boundary gestures change nothing -/

/-- C4: a wheel gesture that crosses the threshold but whose next index is
out of range leaves `currentIndex` and `hasMore` unchanged and has its
accumulated delta reset to 0 once the idle-settle timeout fires after the
commit attempt; the analogous out-of-range touch release likewise leaves
`currentIndex` and `hasMore` unchanged and zeroes the drag offsets. -/
theorem boundary_gesture_frame (s : EngineState) (deltaY : Int) (threshold : Nat)
    (hscroll : s.isScrolling = false)
    (hdrag : s.isDragging = true)
    (hwth : threshold ≤ (s.accumulatedDelta + deltaY).natAbs)
    (hwout : ¬ (0 ≤ (s.currentIndex : Int) + wheelDirection (s.accumulatedDelta + deltaY)
        ∧ (s.currentIndex : Int) + wheelDirection (s.accumulatedDelta + deltaY)
            < (s.videos.length : Int)))
    (htth : threshold ≤ (s.startY - s.currentY).natAbs)
    (htout : ¬ (0 ≤ (s.currentIndex : Int) + wheelDirection (s.startY - s.currentY)
        ∧ (s.currentIndex : Int) + wheelDirection (s.startY - s.currentY)
            < (s.videos.length : Int))) :
    (wheelTimeoutFire (handleWheel s deltaY threshold)).currentIndex = s.currentIndex
    ∧ (wheelTimeoutFire (handleWheel s deltaY threshold)).hasMore = s.hasMore
    ∧ (wheelTimeoutFire (handleWheel s deltaY threshold)).accumulatedDelta = 0
    ∧ (handleTouchEnd s threshold).currentIndex = s.currentIndex
    ∧ (handleTouchEnd s threshold).hasMore = s.hasMore
    ∧ (handleTouchEnd s threshold).startY = 0
    ∧ (handleTouchEnd s threshold).currentY = 0 := by
  have hw : handleWheel s deltaY threshold
      = { s with accumulatedDelta := s.accumulatedDelta + deltaY } := by
    simp [handleWheel, hscroll, hwth, hwout]
  have ht : handleTouchEnd s threshold
      = { s with isDragging := false, startY := 0, currentY := 0 } := by
    simp [handleTouchEnd, hdrag, htth, htout]
  rw [hw, ht]
  simp [wheelTimeoutFire]

/-- C4 witness. -/
theorem boundary_gesture_frame_witness :
    (boundaryEngineExample.isScrolling = false
      ∧ boundaryEngineExample.isDragging = true
      ∧ 50 ≤ (boundaryEngineExample.accumulatedDelta + 100).natAbs
      ∧ ¬ (0 ≤ (boundaryEngineExample.currentIndex : Int)
            + wheelDirection (boundaryEngineExample.accumulatedDelta + 100)
          ∧ (boundaryEngineExample.currentIndex : Int)
            + wheelDirection (boundaryEngineExample.accumulatedDelta + 100)
              < (boundaryEngineExample.videos.length : Int))
      ∧ 50 ≤ (boundaryEngineExample.startY - boundaryEngineExample.currentY).natAbs
      ∧ ¬ (0 ≤ (boundaryEngineExample.currentIndex : Int)
            + wheelDirection (boundaryEngineExample.startY
                - boundaryEngineExample.currentY)
          ∧ (boundaryEngineExample.currentIndex : Int)
            + wheelDirection (boundaryEngineExample.startY
                - boundaryEngineExample.currentY)
              < (boundaryEngineExample.videos.length : Int)))
    ∧ ((wheelTimeoutFire (handleWheel boundaryEngineExample 100 50)).currentIndex
          = boundaryEngineExample.currentIndex
      ∧ (wheelTimeoutFire (handleWheel boundaryEngineExample 100 50)).hasMore
          = boundaryEngineExample.hasMore
      ∧ (wheelTimeoutFire (handleWheel boundaryEngineExample 100 50)).accumulatedDelta
          = 0
      ∧ (handleTouchEnd boundaryEngineExample 50).currentIndex
          = boundaryEngineExample.currentIndex
      ∧ (handleTouchEnd boundaryEngineExample 50).hasMore
          = boundaryEngineExample.hasMore
      ∧ (handleTouchEnd boundaryEngineExample 50).startY = 0
      ∧ (handleTouchEnd boundaryEngineExample 50).currentY = 0) :=
  ⟨⟨by decide, by decide, by decide, by decide, by decide, by decide⟩,
    boundary_gesture_frame boundaryEngineExample 100 50
      (by decide) (by decide) (by decide) (by decide) (by decide) (by decide)⟩

/-! ## C7: snapToIndex -/

/-- C7: on a non-empty feed, `snapToIndex` clamps its target into
`[0, len-1]`; when the clamped target equals `currentIndex` and the call is
not immediate it is a no-op; otherwise it sets `currentIndex` to the
clamped target, marks the engine snapping, and zeroes the accumulated
delta; the snap timeout ends the snapping window; and while snapping every
new wheel/touch input is swallowed without any state change. -/
theorem snap_to_index_spec (s : EngineState) (target : Int) (immediate : Bool)
    (hlen : 0 < s.videos.length) :
    (0 ≤ clampIndex target s.videos.length
      ∧ clampIndex target s.videos.length < (s.videos.length : Int))
    ∧ (clampIndex target s.videos.length = (s.currentIndex : Int) →
        immediate = false → snapToIndex s target immediate = s)
    ∧ (¬ (clampIndex target s.videos.length = (s.currentIndex : Int)
          ∧ immediate = false) →
        (snapToIndex s target immediate).currentIndex
            = (clampIndex target s.videos.length).toNat
        ∧ (snapToIndex s target immediate).isScrolling = true
        ∧ (snapToIndex s target immediate).accumulatedDelta = 0)
    ∧ (snapTimeoutFire (snapToIndex s target immediate)).isScrolling = false
    ∧ (∀ s' : EngineState, s'.isScrolling = true →
        (∀ d t, handleWheel s' d t = s')
        ∧ (∀ y, handleTouchStart s' y = s')
        ∧ (∀ y, handleTouchMove s' y = s')
        ∧ (s'.isDragging = false → ∀ t, handleTouchEnd s' t = s')) := by
  have hcl : 0 ≤ clampIndex target s.videos.length
      ∧ clampIndex target s.videos.length < (s.videos.length : Int) := by
    constructor
    · exact le_max_left 0 _
    · apply max_lt
      · exact_mod_cast hlen
      · exact lt_of_le_of_lt (min_le_right _ _) (by omega)
  refine ⟨hcl, ?_, ?_, ?_, ?_⟩
  · intro h1 h2
    simp [snapToIndex, h1, h2]
  · intro h
    have heq : snapToIndex s target immediate
        = { s with isScrolling := true
                   targetIndex := (clampIndex target s.videos.length).toNat
                   accumulatedDelta := 0
                   currentIndex := (clampIndex target s.videos.length).toNat } := by
      simp [snapToIndex, h, hcl.2]
    rw [heq]
    exact ⟨rfl, rfl, rfl⟩
  · simp [snapTimeoutFire]
  · intro s' hs'
    refine ⟨?_, ?_, ?_, ?_⟩
    · intro d t
      simp [handleWheel, hs']
    · intro y
      simp [handleTouchStart, hs']
    · intro y
      simp [handleTouchMove, hs']
    · intro hd t
      simp [handleTouchEnd, hd]

/-- C7 witness. -/
theorem snap_to_index_spec_witness :
    0 < snapEngineExample.videos.length
    ∧ ((0 ≤ clampIndex 5 snapEngineExample.videos.length
          ∧ clampIndex 5 snapEngineExample.videos.length
              < (snapEngineExample.videos.length : Int))
      ∧ (clampIndex 5 snapEngineExample.videos.length
            = (snapEngineExample.currentIndex : Int) →
          false = false → snapToIndex snapEngineExample 5 false = snapEngineExample)
      ∧ (¬ (clampIndex 5 snapEngineExample.videos.length
              = (snapEngineExample.currentIndex : Int)
            ∧ false = false) →
          (snapToIndex snapEngineExample 5 false).currentIndex
              = (clampIndex 5 snapEngineExample.videos.length).toNat
          ∧ (snapToIndex snapEngineExample 5 false).isScrolling = true
          ∧ (snapToIndex snapEngineExample 5 false).accumulatedDelta = 0)
      ∧ (snapTimeoutFire (snapToIndex snapEngineExample 5 false)).isScrolling = false
      ∧ (∀ s' : EngineState, s'.isScrolling = true →
          (∀ d t, handleWheel s' d t = s')
          ∧ (∀ y, handleTouchStart s' y = s')
          ∧ (∀ y, handleTouchMove s' y = s')
          ∧ (s'.isDragging = false → ∀ t, handleTouchEnd s' t = s'))) :=
  ⟨by decide, snap_to_index_spec snapEngineExample 5 false (by decide)⟩

end PexelFeed
